import Mathlib

/-!
Shallow embedding of `src/playgama_sdk.js` (Playgama Bridge SDK wrapper).

The JavaScript module is a flat set of stateful free functions over
module-level variables (`bridge`, `vkBridge`, `isInitialized`,
`languageApplied`, `gameReadySent`, `lastInterstitialTime`,
`lastShopRewardedTime`, `isAdsDisabled`) plus `localStorage`.  We embed it
as pure Lean functions in explicit state-passing style: each exported
function takes the module state (record `SdkState`) together with the
outcomes of the external calls it may make (current `Date.now()` values,
whether an awaited external SDK call succeeds or throws, the payload an
external call returns) and produces its JS return value, the new module
state, and instrumentation recording which external SDK calls it issued.
A thrown exception of an external call is modelled by the corresponding
oracle value (`false` for a Bool success flag, `Except.error ()` for a
payload-carrying call); a function that cannot itself throw is embedded as
a total Lean function.
-/

/-- The external bridge object, as far as the wrapper inspects it:
`bridge.platform.id`, `bridge.platform.language` (possibly absent/empty),
and which parts of `bridge.advertisement` exist (consulted by
`showStickyBanner`). -/
structure Bridge where
  platformId : String
  language : Option String
  hasAdvertisement : Bool
  hasShowSticky : Bool
deriving DecidableEq, Repr

/-- The module-level mutable state of `playgama_sdk.js` (lines 7-14),
together with the browser `localStorage`, modelled as an association list
from keys to string values. -/
structure SdkState where
  bridge : Option Bridge
  vkBridge : Bool
  isInitialized : Bool
  languageApplied : Bool
  gameReadySent : Bool
  lastInterstitialTime : Int
  lastShopRewardedTime : Int
  isAdsDisabled : Bool
  localStorage : List (String × String)
deriving DecidableEq, Repr

/-- The initial values of the module variables (lines 7-14), with an empty
`localStorage`. -/
def initialState : SdkState :=
  { bridge := none
    vkBridge := false
    isInitialized := false
    languageApplied := false
    gameReadySent := false
    lastInterstitialTime := 0
    lastShopRewardedTime := 0
    isAdsDisabled := false
    localStorage := [] }

/-- `const INTERSTITIAL_COOLDOWN = 90000` (line 16). -/
def INTERSTITIAL_COOLDOWN : Int := 90000

/-- `const SHOP_REWARDED_COOLDOWN = 600000` (line 17). -/
def SHOP_REWARDED_COOLDOWN : Int := 600000

/-- `localStorage.getItem k`: `none` models JS `null`. -/
def lsGet : List (String × String) → String → Option String
  | [], _ => none
  | (k', v) :: rest, k => if k' = k then some v else lsGet rest k

/-- `localStorage.setItem k v`. -/
def lsSet (store : List (String × String)) (k v : String) : List (String × String) :=
  (k, v) :: store.filter (fun p => p.1 ≠ k)

/-- JavaScript values, as far as the wrapper manipulates them: the player
data objects handled by `savePlayerData`/`loadPlayerData` are objects whose
fields are numbers (possibly `NaN`, from `parseInt`), booleans or strings.
Objects are association lists of fields in insertion order. -/
inductive JsVal where
  | null : JsVal
  | bool (b : Bool) : JsVal
  | num (n : Int) : JsVal
  | nan : JsVal
  | str (s : String) : JsVal
  | obj (fields : List (String × JsVal)) : JsVal

/-- The empty object `{}`. -/
def JsVal.empty : JsVal := JsVal.obj []

/-- JS truthiness of a value. -/
def jsTruthy : JsVal → Bool
  | JsVal.null => false
  | JsVal.bool b => b
  | JsVal.num n => decide (n ≠ 0)
  | JsVal.nan => false
  | JsVal.str s => decide (s ≠ "")
  | JsVal.obj _ => true

/-- JS `String(v)` for the value shapes above (for integers JS prints the
same decimal form as `toString` on `Int`). -/
def jsToString : JsVal → String
  | JsVal.null => "null"
  | JsVal.bool b => if b then "true" else "false"
  | JsVal.num n => toString n
  | JsVal.nan => "NaN"
  | JsVal.str s => s
  | JsVal.obj _ => "[object Object]"

/-- Truthiness of a `localStorage.getItem` result (`null` and `""` are
falsy). -/
def optTruthy : Option String → Bool
  | none => false
  | some s => decide (s ≠ "")

/-- Field lookup in an object's field list (`undefined` is `none`). -/
def lookupField : List (String × JsVal) → String → Option JsVal
  | [], _ => none
  | (k', v) :: rest, k => if k' = k then some v else lookupField rest k

/-- `data.k` on a JS value: `undefined` (= `none`) unless `data` is an
object with field `k`. -/
def getField : JsVal → String → Option JsVal
  | JsVal.obj fields, k => lookupField fields k
  | _, _ => none

/-- JS property assignment `o.k = v` on a field list: overwrites in place
if the field exists, else appends. -/
def setField (o : List (String × JsVal)) (k : String) (v : JsVal) : List (String × JsVal) :=
  if o.any (fun p => p.1 = k) then
    o.map (fun p => if p.1 = k then (k, v) else p)
  else o ++ [(k, v)]

/-- The longest digit prefix of a character list, as a number; `none` when
there is no leading digit. -/
def parseIntDigits (cs : List Char) : Option Nat :=
  let ds := cs.takeWhile Char.isDigit
  if ds.isEmpty then none
  else some (ds.foldl (fun a c => a * 10 + (c.toNat - 48)) 0)

/-- JS `parseInt(s, 10)`: skip leading whitespace, optional sign, longest
decimal-digit prefix; `NaN` when no digits follow. -/
def parseIntJS (s : String) : JsVal :=
  let cs := s.data.dropWhile Char.isWhitespace
  match cs with
  | '-' :: rest =>
    match parseIntDigits rest with
    | some n => JsVal.num (-(n : Int))
    | none => JsVal.nan
  | '+' :: rest =>
    match parseIntDigits rest with
    | some n => JsVal.num (n : Int)
    | none => JsVal.nan
  | _ =>
    match parseIntDigits cs with
    | some n => JsVal.num (n : Int)
    | none => JsVal.nan

/-- JS `Math.ceil(x / y)` on integer operands with positive `y`
(`Int` division in Lean is Euclidean, which for a positive divisor is
floor division, and `ceil q = -floor (-q)`). -/
def jsCeilDiv (x y : Int) : Int := -((-x) / y)

/-- The host `JSON.stringify` / `JSON.parse` pair used by the
`localStorage` fallback; `parse` returns `none` when `JSON.parse` would
throw.  The module only relies on the host contract that `parse` inverts
`stringify`, which theorems take as a hypothesis. -/
structure JsonCodec where
  stringify : JsVal → String
  parse : String → Option JsVal

/-- `isVKPlatform()` (lines 534-537): `bridge` present and
`bridge.platform.id === 'vk'`. -/
def isVKPlatform (s : SdkState) : Bool :=
  match s.bridge with
  | none => false
  | some b => decide (b.platformId = "vk")

/-- `isYandexSDKReady()` (lines 655-657). -/
def isYandexSDKReady (s : SdkState) : Bool := s.isInitialized

/-- `setAdsDisabled(disabled)` (lines 526-529). -/
def setAdsDisabled (s : SdkState) (disabled : Bool) : SdkState :=
  { s with isAdsDisabled := disabled }

/-- `isAdsDisabledByPurchase()` (lines 519-521). -/
def isAdsDisabledByPurchase (s : SdkState) : Bool := s.isAdsDisabled

/-- Result of `initPlaygamaSDK()`: the returned value and the new module
state. -/
structure InitCall where
  result : Option Bridge
  state : SdkState
deriving DecidableEq, Repr

/-- `initPlaygamaSDK()` (lines 51-104).  Oracles: `found` is what
`waitForBridge()` resolves with (`none` after the 3-second limit),
`initOk` whether `bridge.initialize()` succeeds, `vkBridgePresent` whether
`window.vkBridge` exists, `vkInitOk` whether `VKWebAppInit` succeeds.
On an `initialize()` throw the catch block (lines 99-103) still marks the
module initialized and returns `null`, with the module `bridge` variable
already assigned (line 60). -/
def initPlaygamaSDK (s : SdkState) (found : Option Bridge) (initOk : Bool)
    (vkBridgePresent : Bool) (vkInitOk : Bool) : InitCall :=
  if s.isInitialized && s.bridge.isSome then
    { result := s.bridge, state := s }
  else
    match found with
    | none =>
      { result := none, state := { s with bridge := none, isInitialized := true } }
    | some b =>
      if initOk then
        let s1 := { s with bridge := some b, isInitialized := true }
        if b.platformId = "vk" && vkBridgePresent then
          if vkInitOk then
            { result := some b, state := { s1 with vkBridge := true } }
          else
            { result := some b, state := { s1 with vkBridge := false } }
        else
          { result := some b, state := s1 }
      else
        { result := none, state := { s with bridge := some b, isInitialized := true } }

/-- `applyLanguageOnce()` (lines 109-129): the new state, and the game
language passed to `setLang` (`none` when the guard fires or there is no
bridge).  `bridge.platform.language || 'ru'` treats a missing or empty
language as `'ru'`. -/
def applyLanguageOnce (s : SdkState) : SdkState × Option String :=
  if s.languageApplied then (s, none)
  else
    ({ s with languageApplied := true },
      match s.bridge with
      | none => none
      | some b =>
        let lang := match b.language with
          | none => "ru"
          | some l => if l = "" then "ru" else l
        some (if lang = "ru" then "ru" else "en"))

/-- `sendGameReadyOnce()` (lines 134-149): the new state, and the messages
sent through `bridge.platform.sendMessage`. -/
def sendGameReadyOnce (s : SdkState) : SdkState × List String :=
  if s.gameReadySent then (s, [])
  else
    ({ s with gameReadySent := true },
      match s.bridge with
      | none => []
      | some _ => ["game_ready"])

/-- Result of `showInterstitialAd`: the returned `shown` field, the new
module state, and whether `bridge.advertisement.showInterstitial()` was
invoked. -/
structure InterstitialCall where
  shown : Bool
  state : SdkState
  calledShowInterstitial : Bool
deriving DecidableEq, Repr

/-- `showInterstitialAd(reason)` (lines 180-210).  Oracles: `now` is
`Date.now()` at line 188, `now2` is `Date.now()` at line 202 (after the ad
closed), `showOk` whether `bridge.advertisement.showInterstitial()`
resolves (else it throws and the catch at lines 205-209 runs). -/
def showInterstitialAd (s : SdkState) (now now2 : Int) (showOk : Bool) : InterstitialCall :=
  if s.isAdsDisabled then
    { shown := false, state := s, calledShowInterstitial := false }
  else if now - s.lastInterstitialTime < INTERSTITIAL_COOLDOWN then
    { shown := false, state := s, calledShowInterstitial := false }
  else
    match s.bridge with
    | none => { shown := true, state := s, calledShowInterstitial := false }
    | some _ =>
      if showOk then
        { shown := true
          state := { s with lastInterstitialTime := now2 }
          calledShowInterstitial := true }
      else
        { shown := false, state := s, calledShowInterstitial := true }

/-- Result of `showRewardedAd`: the returned `rewarded` field, the new
module state, and whether `bridge.advertisement.showRewarded()` was
invoked. -/
structure RewardedCall where
  rewarded : Bool
  state : SdkState
  calledShowRewarded : Bool
deriving DecidableEq, Repr

/-- `showRewardedAd(reason)` (lines 215-231).  Oracle: `showOk` whether
`bridge.advertisement.showRewarded()` resolves. -/
def showRewardedAd (s : SdkState) (showOk : Bool) : RewardedCall :=
  match s.bridge with
  | none => { rewarded := true, state := s, calledShowRewarded := false }
  | some _ =>
    if showOk then { rewarded := true, state := s, calledShowRewarded := true }
    else { rewarded := false, state := s, calledShowRewarded := true }

/-- Result of `showShopRewardedAd`: the three returned fields, the new
module state, and whether `bridge.advertisement.showRewarded()` was
invoked. -/
structure ShopRewardedCall where
  rewarded : Bool
  cooldown : Bool
  remainingTime : Int
  state : SdkState
  calledShowRewarded : Bool
deriving DecidableEq, Repr

/-- `showShopRewardedAd()` (lines 236-252).  Oracles: `now` is
`Date.now()` at line 237, `now2` is `Date.now()` at line 248, `showOk` as
for `showRewardedAd`. -/
def showShopRewardedAd (s : SdkState) (now now2 : Int) (showOk : Bool) : ShopRewardedCall :=
  let timeSinceLastAd := now - s.lastShopRewardedTime
  if timeSinceLastAd < SHOP_REWARDED_COOLDOWN then
    { rewarded := false
      cooldown := true
      remainingTime := jsCeilDiv (SHOP_REWARDED_COOLDOWN - timeSinceLastAd) 1000
      state := s
      calledShowRewarded := false }
  else
    let r := showRewardedAd s showOk
    if r.rewarded then
      { rewarded := true
        cooldown := false
        remainingTime := 0
        state := { r.state with lastShopRewardedTime := now2 }
        calledShowRewarded := r.calledShowRewarded }
    else
      { rewarded := false
        cooldown := false
        remainingTime := 0
        state := r.state
        calledShowRewarded := r.calledShowRewarded }

/-- `getShopRewardedCooldown()` (lines 257-266); a pure read, it assigns
no module variable.  Oracle: `now` is `Date.now()` at line 258. -/
def getShopRewardedCooldown (s : SdkState) (now : Int) : Int :=
  let timeSinceLastAd := now - s.lastShopRewardedTime
  if SHOP_REWARDED_COOLDOWN ≤ timeSinceLastAd then 0
  else jsCeilDiv (SHOP_REWARDED_COOLDOWN - timeSinceLastAd) 1000

/-- The `VKWebAppStorageSet` writes that the VK branch of
`savePlayerData` issues for a data object (lines 286-338): one write per
defined field, in source order, values via `String(...)` except `noAds`
which is encoded as `'1'`/`'0'`. -/
def collectVkWrites (data : JsVal) : List (String × String) :=
  (match getField data "coins" with
    | some v => [("gameCoins", jsToString v)]
    | none => []) ++
  (match getField data "hints" with
    | some v => [("gameHints", jsToString v)]
    | none => []) ++
  (match getField data "undos" with
    | some v => [("gameUndos", jsToString v)]
    | none => []) ++
  (match getField data "maxLevel" with
    | some v => [("gameMaxLevel", jsToString v)]
    | none => []) ++
  (match getField data "noAds" with
    | some v => [("gameNoAds", if jsTruthy v then "1" else "0")]
    | none => [])

/-- Result of `savePlayerData`: the returned boolean, the new module
state, the `VKWebAppStorageSet` writes issued, and whether
`bridge.storage.set` was invoked. -/
structure SaveCall where
  result : Bool
  state : SdkState
  vkWrites : List (String × String)
  calledBridgeSet : Bool
deriving Repr

/-- The non-VK tail of `savePlayerData` (lines 348-367): `localStorage`
fallback when no bridge, else `bridge.storage.set`.  Oracles:
`bridgeSetOk` whether `bridge.storage.set` resolves, `localSetOk` whether
`localStorage.setItem` succeeds (it throws when the quota is exceeded). -/
def playgamaSave (s : SdkState) (data : JsVal) (codec : JsonCodec)
    (bridgeSetOk localSetOk : Bool) : SaveCall :=
  match s.bridge with
  | none =>
    if localSetOk then
      { result := true
        state := { s with localStorage := lsSet s.localStorage "cloudSave" (codec.stringify data) }
        vkWrites := []
        calledBridgeSet := false }
    else
      { result := false, state := s, vkWrites := [], calledBridgeSet := false }
  | some _ =>
    { result := bridgeSetOk, state := s, vkWrites := [], calledBridgeSet := true }

/-- `savePlayerData(data)` (lines 271-368).  On the VK platform with a VK
bridge it issues one `VKWebAppStorageSet` per defined field and returns
`true`; if that batch throws (`vkSetOk = false`) it falls through to the
Playgama/`localStorage` tail. -/
def savePlayerData (s : SdkState) (data : JsVal) (codec : JsonCodec)
    (vkSetOk bridgeSetOk localSetOk : Bool) : SaveCall :=
  if s.vkBridge && isVKPlatform s then
    let writes := collectVkWrites data
    if vkSetOk then
      { result := true, state := s, vkWrites := writes, calledBridgeSet := false }
    else
      let tail := playgamaSave s data codec bridgeSetOk localSetOk
      { tail with vkWrites := writes }
  else
    playgamaSave s data codec bridgeSetOk localSetOk

/-- One step of the `result.keys.forEach` loop of `loadPlayerData`
(lines 396-408): recognized keys with truthy (non-empty) values set the
corresponding field of the accumulated object. -/
def parseVkItem (acc : List (String × JsVal)) (key value : String) : List (String × JsVal) :=
  if key = "gameCoins" && value ≠ "" then setField acc "coins" (parseIntJS value)
  else if key = "gameHints" && value ≠ "" then setField acc "hints" (parseIntJS value)
  else if key = "gameUndos" && value ≠ "" then setField acc "undos" (parseIntJS value)
  else if key = "gameMaxLevel" && value ≠ "" then setField acc "maxLevel" (parseIntJS value)
  else if key = "gameNoAds" && value ≠ "" then setField acc "noAds" (JsVal.bool (value = "1"))
  else acc

/-- The object fields parsed from a `VKWebAppStorageGet` result
(lines 393-409); `keysOpt = none` models a result without a `keys`
array. -/
def vkParsedFields (keysOpt : Option (List (String × String))) : List (String × JsVal) :=
  match keysOpt with
  | none => []
  | some items => items.foldl (fun acc it => parseVkItem acc it.1 it.2) []

/-- Result of `loadPlayerData`: the returned value, the new module state,
the `VKWebAppStorageSet` writes issued (by the legacy-data sync), and
whether `bridge.storage.get` was invoked. -/
structure LoadCall where
  result : JsVal
  state : SdkState
  vkWrites : List (String × String)
  calledBridgeGet : Bool

/-- The non-VK tail of `loadPlayerData` (lines 448-468): `localStorage`
fallback when no bridge (`saved ? JSON.parse(saved) : {}` with the catch
returning `{}`), else `bridge.storage.get` with `data || {}` and a `{}`
fallback on throw. -/
def playgamaLoad (s : SdkState) (codec : JsonCodec)
    (bridgeGet : Except Unit JsVal) : LoadCall :=
  match s.bridge with
  | none =>
    match lsGet s.localStorage "cloudSave" with
    | none =>
      { result := JsVal.empty, state := s, vkWrites := [], calledBridgeGet := false }
    | some saved =>
      if saved = "" then
        { result := JsVal.empty, state := s, vkWrites := [], calledBridgeGet := false }
      else
        match codec.parse saved with
        | some v =>
          { result := v, state := s, vkWrites := [], calledBridgeGet := false }
        | none =>
          { result := JsVal.empty, state := s, vkWrites := [], calledBridgeGet := false }
  | some _ =>
    match bridgeGet with
    | Except.ok v =>
      { result := if jsTruthy v then v else JsVal.empty
        state := s
        vkWrites := []
        calledBridgeGet := true }
    | Except.error _ =>
      { result := JsVal.empty, state := s, vkWrites := [], calledBridgeGet := true }

/-- `loadPlayerData()` (lines 373-468).  Oracles: `vkGet` the outcome of
`VKWebAppStorageGet` (`Except.error` when it throws, otherwise the `keys`
array as key/value pairs), `vkSetOk`/`bridgeSetOk` passed to the nested
`savePlayerData` of the legacy sync (lines 413-435), `bridgeGet` the
outcome of `bridge.storage.get`. -/
def loadPlayerData (s : SdkState) (codec : JsonCodec)
    (vkGet : Except Unit (Option (List (String × String))))
    (vkSetOk bridgeSetOk : Bool)
    (bridgeGet : Except Unit JsVal) : LoadCall :=
  if s.vkBridge && isVKPlatform s then
    match vkGet with
    | Except.error _ => playgamaLoad s codec bridgeGet
    | Except.ok keysOpt =>
      let fields := vkParsedFields keysOpt
      if fields.isEmpty then
        let localCoins := lsGet s.localStorage "gameCoins"
        let localMaxLevel := lsGet s.localStorage "maxLevel"
        if optTruthy localCoins || optTruthy localMaxLevel then
          let syncFields :=
            (match localCoins with
              | some c => if c ≠ "" then [("coins", parseIntJS c)] else []
              | none => []) ++
            (match localMaxLevel with
              | some m => if m ≠ "" then [("maxLevel", parseIntJS m)] else []
              | none => [])
          let syncData := JsVal.obj syncFields
          let sv := savePlayerData s syncData codec vkSetOk bridgeSetOk true
          { result := syncData
            state := sv.state
            vkWrites := sv.vkWrites
            calledBridgeGet := false }
        else
          { result := JsVal.obj fields, state := s, vkWrites := [], calledBridgeGet := false }
      else
        { result := JsVal.obj fields, state := s, vkWrites := [], calledBridgeGet := false }
  else
    playgamaLoad s codec bridgeGet

/-- Result of `makePurchase`: the returned `success` field and whether
`bridge.payments.purchase` was invoked (the state is untouched). -/
structure PurchaseCall where
  success : Bool
  calledPurchase : Bool
deriving DecidableEq, Repr

/-- `makePurchase(productId)` (lines 473-487).  Oracle: `purchase` the
outcome of `bridge.payments.purchase`. -/
def makePurchase (s : SdkState) (purchase : Except Unit JsVal) : PurchaseCall :=
  match s.bridge with
  | none => { success := true, calledPurchase := false }
  | some _ =>
    match purchase with
    | Except.ok _ => { success := true, calledPurchase := true }
    | Except.error _ => { success := false, calledPurchase := true }

/-- `showStickyBanner()` (lines 542-609).  Oracles: `vkBannerOk` whether
`VKWebAppShowBannerAd` resolves, `stickyOk` whether
`bridge.advertisement.showSticky()` resolves (a throw there is caught by
the outer catch, line 605, returning `false`). -/
def showStickyBanner (s : SdkState) (vkBannerOk stickyOk : Bool) : Bool :=
  match s.bridge with
  | none => false
  | some b =>
    if !isVKPlatform s then false
    else if s.vkBridge && vkBannerOk then true
    else if b.hasAdvertisement && b.hasShowSticky then stickyOk
    else false

/-- Iterating `applyLanguageOnce` n times (tracking only the state). -/
def applyLanguageOnceIter : Nat → SdkState → SdkState
  | 0, s => s
  | n + 1, s => applyLanguageOnceIter n (applyLanguageOnce s).1

/-- Iterating `sendGameReadyOnce` n times (tracking only the state). -/
def sendGameReadyOnceIter : Nat → SdkState → SdkState
  | 0, s => s
  | n + 1, s => sendGameReadyOnceIter n (sendGameReadyOnce s).1

/-! Concrete states used by witnesses and counterexamples. -/

/-- A non-VK bridge, as a generic host platform exposes it. -/
def webBridge : Bridge :=
  { platformId := "web", language := some "en", hasAdvertisement := true, hasShowSticky := true }

/-- A VK-platform bridge. -/
def vkTestBridge : Bridge :=
  { platformId := "vk", language := some "ru", hasAdvertisement := true, hasShowSticky := false }

/-- A state after a successful non-VK initialization. -/
def stateWithBridge : SdkState :=
  { initialState with bridge := some webBridge, isInitialized := true }

/-- A state after a successful VK initialization, with legacy local keys
present. -/
def stateVK : SdkState :=
  { initialState with
    bridge := some vkTestBridge
    vkBridge := true
    isInitialized := true
    localStorage := [("gameCoins", "150"), ("maxLevel", "7")] }

/-- A concrete player-data object. -/
def sampleData : JsVal := JsVal.obj [("coins", JsVal.num 5), ("noAds", JsVal.bool true)]

/-- A codec satisfying the host round-trip contract at `sampleData`. -/
def sampleCodec : JsonCodec :=
  { stringify := fun _ => "J", parse := fun _ => some sampleData }

/-! Helper lemmas shared by several results. -/

/-- For integer `x`, the code's `Math.ceil(x / 1000)` agrees with the
mathematical ceiling of the rational `x / 1000`. -/
theorem jsCeilDiv_eq_ceil (x : Int) : jsCeilDiv x 1000 = Int.ceil ((x : ℚ) / 1000) := by
  have h2 : (((-x : Int) : ℚ) / ((1000 : ℕ) : ℚ)) = -((x : ℚ) / 1000) := by push_cast; ring
  have h1 : -Int.floor (((-x : Int) : ℚ) / ((1000 : ℕ) : ℚ)) = Int.ceil ((x : ℚ) / 1000) := by
    rw [h2, Int.floor_neg, neg_neg]
  rw [← h1, Rat.floor_intCast_div_natCast]
  rfl

/-- `Math.ceil(x / 1000)` is at least `1` for positive `x`. -/
theorem jsCeilDiv_pos (x : Int) (h : 1 ≤ x) : 1 ≤ jsCeilDiv x 1000 := by
  unfold jsCeilDiv
  omega

/-- Reading back the key just written to `localStorage`. -/
theorem lsGet_lsSet_self (store : List (String × String)) (k v : String) :
    lsGet (lsSet store k v) k = some v := by
  simp [lsGet, lsSet]

/-! Claims. -/

/-- C1, counterexample to the claim as stated: with ads disabled by
purchase (`isAdsDisabled = true`), a call with 100000 ms elapsed since
`lastInterstitialTime` — at least the 90000 ms window — does not attempt
the ad show: it returns `{shown:false}` without invoking
`bridge.advertisement.showInterstitial`, contradicting "if at least
90000 ms have elapsed, the request is allowed (the ad show is
attempted...)". -/
theorem showInterstitialAd_after_window_refuted :
    INTERSTITIAL_COOLDOWN ≤
        (100000 : Int) - ({ initialState with isAdsDisabled := true } : SdkState).lastInterstitialTime ∧
    (showInterstitialAd { initialState with isAdsDisabled := true } 100000 100000 true).calledShowInterstitial
        = false ∧
    (showInterstitialAd { initialState with isAdsDisabled := true } 100000 100000 true).shown = false := by
  refine ⟨by decide, rfl, rfl⟩

/-- C1 (amended): every call of `showInterstitialAd` made less than
90000 ms (`INTERSTITIAL_COOLDOWN`) after `lastInterstitialTime` returns
`{shown:false}`, does not invoke `bridge.advertisement.showInterstitial`
and leaves the module state unchanged; and — provided ads have not been
disabled by purchase and a bridge is present — a call made at least
90000 ms after `lastInterstitialTime` attempts the ad show, and on
success returns `{shown:true}` and sets `lastInterstitialTime` to the
post-show current time, so that a further call within the window is
blocked. -/
theorem showInterstitialAd_cooldown_policy (s : SdkState) (now now2 : Int) (showOk : Bool) :
    (now - s.lastInterstitialTime < INTERSTITIAL_COOLDOWN →
      (showInterstitialAd s now now2 showOk).shown = false ∧
      (showInterstitialAd s now now2 showOk).calledShowInterstitial = false ∧
      (showInterstitialAd s now now2 showOk).state = s) ∧
    (s.isAdsDisabled = false → s.bridge.isSome = true →
      INTERSTITIAL_COOLDOWN ≤ now - s.lastInterstitialTime →
      (showInterstitialAd s now now2 showOk).calledShowInterstitial = true ∧
      (showOk = true →
        (showInterstitialAd s now now2 showOk).shown = true ∧
        (showInterstitialAd s now now2 showOk).state.lastInterstitialTime = now2 ∧
        ∀ (now3 now4 : Int) (showOk2 : Bool),
          now3 - now2 < INTERSTITIAL_COOLDOWN →
          (showInterstitialAd (showInterstitialAd s now now2 showOk).state now3 now4 showOk2).shown
            = false)) := by
  constructor
  · intro hlt
    by_cases hd : s.isAdsDisabled
    · simp [showInterstitialAd, hd]
    · simp [showInterstitialAd, hd, hlt]
  · intro hd hb hge
    obtain ⟨b, hbeq⟩ := Option.isSome_iff_exists.mp hb
    have hnlt : ¬(now - s.lastInterstitialTime < INTERSTITIAL_COOLDOWN) := not_lt.mpr hge
    cases hok : showOk with
    | false =>
      refine ⟨?_, by intro h; exact absurd h (by simp)⟩
      simp [showInterstitialAd, hd, hnlt, hbeq]
    | true =>
      refine ⟨by simp [showInterstitialAd, hd, hnlt, hbeq], ?_⟩
      intro _
      refine ⟨by simp [showInterstitialAd, hd, hnlt, hbeq], by simp [showInterstitialAd, hd, hnlt, hbeq], ?_⟩
      intro now3 now4 showOk2 hlt3
      have hstate :
          (showInterstitialAd s now now2 true).state = { s with lastInterstitialTime := now2 } := by
        simp [showInterstitialAd, hd, hnlt, hbeq]
      rw [hstate]
      simp [showInterstitialAd, hd, hlt3]

/-- C1 witness: from the freshly initialized state with a bridge, a call
at 100000 ms attempts and (succeeding) records the time 100001, and a
call 50000 ms later is blocked. -/
theorem showInterstitialAd_cooldown_policy_witness :
    (showInterstitialAd stateWithBridge 100000 100001 true).calledShowInterstitial = true ∧
    (showInterstitialAd stateWithBridge 100000 100001 true).shown = true ∧
    (showInterstitialAd stateWithBridge 100000 100001 true).state.lastInterstitialTime = 100001 ∧
    (showInterstitialAd (showInterstitialAd stateWithBridge 100000 100001 true).state
        150000 150000 true).shown = false ∧
    (showInterstitialAd stateWithBridge 1000 1000 true).shown = false := by
  have h := showInterstitialAd_cooldown_policy stateWithBridge 100000 100001 true
  have h2 := h.2 (by rfl) (by rfl) (by decide)
  have h3 := h2.2 rfl
  have hlow := (showInterstitialAd_cooldown_policy stateWithBridge 1000 1000 true).1 (by decide)
  exact ⟨h2.1, h3.1, h3.2.1, h3.2.2 150000 150000 true (by decide), hlow.1⟩

/-- C2 (confirmed): within 600000 ms (`SHOP_REWARDED_COOLDOWN`) of
`lastShopRewardedTime`, `showShopRewardedAd` returns
`{rewarded:false, cooldown:true, remainingTime}` with `remainingTime`
the ceiling of `(600000 - elapsed) / 1000` seconds, without invoking the
rewarded ad and without touching the state; otherwise it runs
`showRewardedAd` and, exactly when that result is rewarded, sets
`lastShopRewardedTime` to the post-show current time and returns
`{rewarded:true, cooldown:false, remainingTime:0}` (when not rewarded it
returns `{rewarded:false, cooldown:false, remainingTime:0}` leaving the
state unchanged). -/
theorem showShopRewardedAd_cooldown_policy (s : SdkState) (now now2 : Int) (showOk : Bool) :
    (now - s.lastShopRewardedTime < SHOP_REWARDED_COOLDOWN →
      showShopRewardedAd s now now2 showOk =
        { rewarded := false
          cooldown := true
          remainingTime :=
            Int.ceil (((SHOP_REWARDED_COOLDOWN - (now - s.lastShopRewardedTime) : Int) : ℚ) / 1000)
          state := s
          calledShowRewarded := false }) ∧
    (SHOP_REWARDED_COOLDOWN ≤ now - s.lastShopRewardedTime →
      ((showRewardedAd s showOk).rewarded = true →
        showShopRewardedAd s now now2 showOk =
          { rewarded := true
            cooldown := false
            remainingTime := 0
            state := { (showRewardedAd s showOk).state with lastShopRewardedTime := now2 }
            calledShowRewarded := (showRewardedAd s showOk).calledShowRewarded }) ∧
      ((showRewardedAd s showOk).rewarded = false →
        showShopRewardedAd s now now2 showOk =
          { rewarded := false
            cooldown := false
            remainingTime := 0
            state := (showRewardedAd s showOk).state
            calledShowRewarded := (showRewardedAd s showOk).calledShowRewarded })) := by
  constructor
  · intro hlt
    simp [showShopRewardedAd, hlt, jsCeilDiv_eq_ceil]
  · intro hge
    have hnlt : ¬(now - s.lastShopRewardedTime < SHOP_REWARDED_COOLDOWN) := not_lt.mpr hge
    constructor
    · intro hr
      simp [showShopRewardedAd, hnlt, hr]
    · intro hr
      simp [showShopRewardedAd, hnlt, hr]

/-- C2 witness: in cooldown (1000 ms elapsed) the concrete result is the
599-second cooldown record; after the window with a bridge and a
successful ad, the time is recorded. -/
theorem showShopRewardedAd_cooldown_policy_witness :
    showShopRewardedAd initialState 1000 1000 true =
      { rewarded := false
        cooldown := true
        remainingTime :=
          Int.ceil (((SHOP_REWARDED_COOLDOWN - ((1000 : Int) - initialState.lastShopRewardedTime) : Int) : ℚ) / 1000)
        state := initialState
        calledShowRewarded := false } ∧
    (showShopRewardedAd initialState 1000 1000 true).remainingTime = 599 ∧
    showShopRewardedAd stateWithBridge 700000 700001 true =
      { rewarded := true
        cooldown := false
        remainingTime := 0
        state := { (showRewardedAd stateWithBridge true).state with lastShopRewardedTime := 700001 }
        calledShowRewarded := (showRewardedAd stateWithBridge true).calledShowRewarded } := by
  have h1 := (showShopRewardedAd_cooldown_policy initialState 1000 1000 true).1 (by decide)
  have h2 := ((showShopRewardedAd_cooldown_policy stateWithBridge 700000 700001 true).2
    (by decide)).1 (by rfl)
  exact ⟨h1, by rfl, h2⟩

/-- C3 (confirmed): with no bridge, `savePlayerData d` returns `true` and
stores `JSON.stringify d` under the `localStorage` key `cloudSave`, and a
subsequent `loadPlayerData` parses it back and returns `d`; with nothing
stored, `loadPlayerData` returns `{}`.  The host `JSON` contract — parsing
the stringified value gives the value back, and the stringified form of an
object is non-empty — is the hypothesis `hcodec`/`hnonempty`. -/
theorem savePlayerData_loadPlayerData_roundtrip
    (s : SdkState) (codec : JsonCodec) (d : JsVal)
    (hbridge : s.bridge = none)
    (hcodec : codec.parse (codec.stringify d) = some d)
    (hnonempty : codec.stringify d ≠ "")
    (vkSetOk bridgeSetOk vkSetOk2 bridgeSetOk2 : Bool)
    (vkGet : Except Unit (Option (List (String × String))))
    (bridgeGet : Except Unit JsVal) :
    (savePlayerData s d codec vkSetOk bridgeSetOk true).result = true ∧
    lsGet (savePlayerData s d codec vkSetOk bridgeSetOk true).state.localStorage "cloudSave"
      = some (codec.stringify d) ∧
    (loadPlayerData (savePlayerData s d codec vkSetOk bridgeSetOk true).state codec
        vkGet vkSetOk2 bridgeSetOk2 bridgeGet).result = d ∧
    (lsGet s.localStorage "cloudSave" = none →
      (loadPlayerData s codec vkGet vkSetOk2 bridgeSetOk2 bridgeGet).result = JsVal.empty) := by
  have hsave :
      savePlayerData s d codec vkSetOk bridgeSetOk true =
        { result := true
          state := { s with localStorage := lsSet s.localStorage "cloudSave" (codec.stringify d) }
          vkWrites := []
          calledBridgeSet := false } := by
    simp [savePlayerData, playgamaSave, isVKPlatform, hbridge]
  refine ⟨by rw [hsave], by rw [hsave]; exact lsGet_lsSet_self _ _ _, ?_, ?_⟩
  · rw [hsave]
    simp [loadPlayerData, playgamaLoad, isVKPlatform, hbridge, lsGet_lsSet_self, hnonempty, hcodec]
  · intro hnone
    simp [loadPlayerData, playgamaLoad, isVKPlatform, hbridge, hnone]

/-- C3 witness: the round trip at `sampleData` with a codec satisfying the
host contract there, starting from the initial (bridgeless) state. -/
theorem savePlayerData_loadPlayerData_roundtrip_witness :
    (savePlayerData initialState sampleData sampleCodec true true true).result = true ∧
    lsGet (savePlayerData initialState sampleData sampleCodec true true true).state.localStorage
      "cloudSave" = some (sampleCodec.stringify sampleData) ∧
    (loadPlayerData (savePlayerData initialState sampleData sampleCodec true true true).state
        sampleCodec (Except.error ()) true true (Except.error ())).result = sampleData ∧
    (loadPlayerData initialState sampleCodec (Except.error ()) true true
        (Except.error ())).result = JsVal.empty := by
  have h := savePlayerData_loadPlayerData_roundtrip initialState sampleCodec sampleData
    rfl rfl (by decide) true true true true (Except.error ()) (Except.error ())
  exact ⟨h.1, h.2.1, h.2.2.1, h.2.2.2 rfl⟩

/-- C4 (confirmed): every exported operation is embedded as a total
function — a thrown external call is consumed by the operation, never
re-raised — and when the external SDK calls an operation makes all throw
(the corresponding oracles are `false` / `Except.error ()`), the
operation returns its graceful fallback: `showInterstitialAd` returns
`{shown:false}`, `showRewardedAd` returns `{rewarded:false}`,
`loadPlayerData` returns `{}`, and the results of `savePlayerData`,
`showStickyBanner` and `makePurchase`'s `success` field are `false`.
The ad-show conjuncts assume the external call is reached (a bridge is
present; for the interstitial also ads enabled and cooldown elapsed),
since only then is there a failure to recover from. -/
theorem external_failure_graceful_fallback
    (s : SdkState) (codec : JsonCodec) (now now2 : Int) (d : JsVal) :
    (s.isAdsDisabled = false → s.bridge.isSome = true →
      INTERSTITIAL_COOLDOWN ≤ now - s.lastInterstitialTime →
      (showInterstitialAd s now now2 false).shown = false) ∧
    (s.bridge.isSome = true → (showRewardedAd s false).rewarded = false) ∧
    (s.bridge.isSome = true →
      (loadPlayerData s codec (Except.error ()) false false (Except.error ())).result
        = JsVal.empty) ∧
    (s.bridge.isSome = true →
      (savePlayerData s d codec false false false).result = false) ∧
    showStickyBanner s false false = false ∧
    (s.bridge.isSome = true → (makePurchase s (Except.error ())).success = false) := by
  refine ⟨?_, ?_, ?_, ?_, ?_, ?_⟩
  · intro hd hb hge
    obtain ⟨b, hbeq⟩ := Option.isSome_iff_exists.mp hb
    have hnlt : ¬(now - s.lastInterstitialTime < INTERSTITIAL_COOLDOWN) := not_lt.mpr hge
    simp [showInterstitialAd, hd, hnlt, hbeq]
  · intro hb
    obtain ⟨b, hbeq⟩ := Option.isSome_iff_exists.mp hb
    simp [showRewardedAd, hbeq]
  · intro hb
    obtain ⟨b, hbeq⟩ := Option.isSome_iff_exists.mp hb
    by_cases hvk : s.vkBridge = true ∧ isVKPlatform s = true
    · simp [loadPlayerData, playgamaLoad, hvk, hbeq]
    · simp only [loadPlayerData]
      rw [if_neg (by simpa using hvk)]
      simp [playgamaLoad, hbeq]
  · intro hb
    obtain ⟨b, hbeq⟩ := Option.isSome_iff_exists.mp hb
    by_cases hvk : s.vkBridge = true ∧ isVKPlatform s = true
    · simp [savePlayerData, playgamaSave, hvk, hbeq]
    · simp only [savePlayerData]
      rw [if_neg (by simpa using hvk)]
      simp [playgamaSave, hbeq]
  · cases hbeq : s.bridge with
    | none => simp [showStickyBanner, hbeq]
    | some b =>
      by_cases hvk : isVKPlatform s = true
      · simp [showStickyBanner, hbeq, hvk]
      · simp [showStickyBanner, hbeq, Bool.not_eq_true _ ▸ hvk]
  · intro hb
    obtain ⟨b, hbeq⟩ := Option.isSome_iff_exists.mp hb
    simp [makePurchase, hbeq]

/-- C4 witness: the fallbacks at a concrete bridged state with every
external call failing. -/
theorem external_failure_graceful_fallback_witness :
    (showInterstitialAd stateWithBridge 100000 100000 false).shown = false ∧
    (showRewardedAd stateWithBridge false).rewarded = false ∧
    (loadPlayerData stateWithBridge sampleCodec (Except.error ()) false false
        (Except.error ())).result = JsVal.empty ∧
    (savePlayerData stateWithBridge sampleData sampleCodec false false false).result = false ∧
    showStickyBanner stateWithBridge false false = false ∧
    (makePurchase stateWithBridge (Except.error ())).success = false := by
  have h := external_failure_graceful_fallback stateWithBridge sampleCodec 100000 100000 sampleData
  exact ⟨h.1 rfl rfl (by decide), h.2.1 rfl, h.2.2.1 rfl, h.2.2.2.1 rfl, h.2.2.2.2.1,
    h.2.2.2.2.2 rfl⟩

/-- C5 (confirmed): on the VK platform with a VK bridge, when the
`VKWebAppStorageGet` result yields no parsed keys and the legacy local
keys `gameCoins` and/or `maxLevel` hold (truthy) values, `loadPlayerData`
parses them with `parseInt`, pushes them to the cloud through
`savePlayerData` (as `VKWebAppStorageSet` writes of `gameCoins` /
`gameMaxLevel`), and returns exactly the object built from the legacy
values. -/
theorem loadPlayerData_legacy_merge
    (s : SdkState) (b : Bridge) (codec : JsonCodec)
    (keysOpt : Option (List (String × String)))
    (vkSetOk bridgeSetOk : Bool) (bridgeGet : Except Unit JsVal)
    (hvk : s.vkBridge = true) (hbridge : s.bridge = some b) (hid : b.platformId = "vk")
    (hempty : vkParsedFields keysOpt = []) :
    (∀ c m : String, lsGet s.localStorage "gameCoins" = some c → c ≠ "" →
      lsGet s.localStorage "maxLevel" = some m → m ≠ "" →
      (loadPlayerData s codec (Except.ok keysOpt) vkSetOk bridgeSetOk bridgeGet).result
          = JsVal.obj [("coins", parseIntJS c), ("maxLevel", parseIntJS m)] ∧
      (loadPlayerData s codec (Except.ok keysOpt) vkSetOk bridgeSetOk bridgeGet).vkWrites
          = [("gameCoins", jsToString (parseIntJS c)),
             ("gameMaxLevel", jsToString (parseIntJS m))]) ∧
    (∀ c : String, lsGet s.localStorage "gameCoins" = some c → c ≠ "" →
      optTruthy (lsGet s.localStorage "maxLevel") = false →
      (loadPlayerData s codec (Except.ok keysOpt) vkSetOk bridgeSetOk bridgeGet).result
          = JsVal.obj [("coins", parseIntJS c)] ∧
      (loadPlayerData s codec (Except.ok keysOpt) vkSetOk bridgeSetOk bridgeGet).vkWrites
          = [("gameCoins", jsToString (parseIntJS c))]) ∧
    (∀ m : String, optTruthy (lsGet s.localStorage "gameCoins") = false →
      lsGet s.localStorage "maxLevel" = some m → m ≠ "" →
      (loadPlayerData s codec (Except.ok keysOpt) vkSetOk bridgeSetOk bridgeGet).result
          = JsVal.obj [("maxLevel", parseIntJS m)] ∧
      (loadPlayerData s codec (Except.ok keysOpt) vkSetOk bridgeSetOk bridgeGet).vkWrites
          = [("gameMaxLevel", jsToString (parseIntJS m))]) := by
  refine ⟨?_, ?_, ?_⟩
  · intro c m hc hcne hm hmne
    constructor <;>
      simp [loadPlayerData, savePlayerData, collectVkWrites, getField, lookupField,
        isVKPlatform, hvk, hbridge, hid, hempty, hc, hcne, hm, hmne, optTruthy] <;>
      cases vkSetOk <;> simp
  · intro c hc hcne hmf
    cases hm : lsGet s.localStorage "maxLevel" with
    | none =>
      constructor <;>
        simp [loadPlayerData, savePlayerData, collectVkWrites, getField, lookupField,
          isVKPlatform, hvk, hbridge, hid, hempty, hc, hcne, hm, optTruthy] <;>
        cases vkSetOk <;> simp
    | some m =>
      have hme : m = "" := by
        rw [hm] at hmf
        simpa [optTruthy] using hmf
      subst hme
      constructor <;>
        simp [loadPlayerData, savePlayerData, collectVkWrites, getField, lookupField,
          isVKPlatform, hvk, hbridge, hid, hempty, hc, hcne, hm, optTruthy] <;>
        cases vkSetOk <;> simp
  · intro m hcf hm hmne
    cases hc : lsGet s.localStorage "gameCoins" with
    | none =>
      constructor <;>
        simp [loadPlayerData, savePlayerData, collectVkWrites, getField, lookupField,
          isVKPlatform, hvk, hbridge, hid, hempty, hc, hm, hmne, optTruthy] <;>
        cases vkSetOk <;> simp
    | some c =>
      have hce : c = "" := by
        rw [hc] at hcf
        simpa [optTruthy] using hcf
      subst hce
      constructor <;>
        simp [loadPlayerData, savePlayerData, collectVkWrites, getField, lookupField,
          isVKPlatform, hvk, hbridge, hid, hempty, hc, hm, hmne, optTruthy] <;>
        cases vkSetOk <;> simp

/-- C5 witness: the VK state with legacy `gameCoins = "150"` and
`maxLevel = "7"` and an empty cloud result merges and returns
`{coins: 150, maxLevel: 7}`, writing both values to the VK cloud. -/
theorem loadPlayerData_legacy_merge_witness :
    (loadPlayerData stateVK sampleCodec (Except.ok (some [])) true true
        (Except.error ())).result
      = JsVal.obj [("coins", JsVal.num 150), ("maxLevel", JsVal.num 7)] ∧
    (loadPlayerData stateVK sampleCodec (Except.ok (some [])) true true
        (Except.error ())).vkWrites
      = [("gameCoins", "150"), ("gameMaxLevel", "7")] := by
  have h := (loadPlayerData_legacy_merge stateVK vkTestBridge sampleCodec (some [])
    true true (Except.error ()) rfl rfl rfl rfl).1 "150" "7" rfl (by decide) rfl (by decide)
  refine ⟨?_, ?_⟩
  · rw [h.1]; rfl
  · rw [h.2]; rfl

/-- C6 (confirmed): on a fresh (not initialized-with-bridge) state, when
the bridge does not load within the wait limit (`found = none`) or its
`initialize()` throws (`initOk = false`), `initPlaygamaSDK` — a total
function, so it never throws — returns `null` and marks the module
initialized, so `isYandexSDKReady()` subsequently returns `true`. -/
theorem initPlaygamaSDK_tolerates_missing_bridge
    (s : SdkState) (found : Option Bridge) (initOk vkBridgePresent vkInitOk : Bool)
    (hfresh : (s.isInitialized && s.bridge.isSome) = false)
    (hfail : found = none ∨ initOk = false) :
    (initPlaygamaSDK s found initOk vkBridgePresent vkInitOk).result = none ∧
    (initPlaygamaSDK s found initOk vkBridgePresent vkInitOk).state.isInitialized = true ∧
    isYandexSDKReady (initPlaygamaSDK s found initOk vkBridgePresent vkInitOk).state = true := by
  rcases hfail with hf | hf
  · subst hf
    simp [initPlaygamaSDK, isYandexSDKReady, hfresh]
  · subst hf
    cases found with
    | none => simp [initPlaygamaSDK, isYandexSDKReady, hfresh]
    | some b => simp [initPlaygamaSDK, isYandexSDKReady, hfresh]

/-- C6 witness: from the initial state, with no bridge loading, the call
returns `null` and the ready flag is set. -/
theorem initPlaygamaSDK_tolerates_missing_bridge_witness :
    (initPlaygamaSDK initialState none true true true).result = none ∧
    (initPlaygamaSDK initialState none true true true).state.isInitialized = true ∧
    isYandexSDKReady (initPlaygamaSDK initialState none true true true).state = true := by
  exact initPlaygamaSDK_tolerates_missing_bridge initialState none true true true rfl (Or.inl rfl)

/-- C7 (confirmed): `getShopRewardedCooldown` — a pure function of the
state, so it assigns no module variable — returns `0` when at least
600000 ms have elapsed since `lastShopRewardedTime`, otherwise the
ceiling of `(600000 - elapsed) / 1000`; and it returns `0` exactly when a
`showShopRewardedAd` call at the same instant is not blocked by the
cooldown. -/
theorem getShopRewardedCooldown_spec (s : SdkState) (now now2 : Int) (showOk : Bool) :
    (SHOP_REWARDED_COOLDOWN ≤ now - s.lastShopRewardedTime →
      getShopRewardedCooldown s now = 0) ∧
    (now - s.lastShopRewardedTime < SHOP_REWARDED_COOLDOWN →
      getShopRewardedCooldown s now
        = Int.ceil (((SHOP_REWARDED_COOLDOWN - (now - s.lastShopRewardedTime) : Int) : ℚ) / 1000)) ∧
    (getShopRewardedCooldown s now = 0 ↔
      (showShopRewardedAd s now now2 showOk).cooldown = false) := by
  refine ⟨?_, ?_, ?_⟩
  · intro hge
    simp [getShopRewardedCooldown, hge]
  · intro hlt
    have hnge : ¬(SHOP_REWARDED_COOLDOWN ≤ now - s.lastShopRewardedTime) := not_le.mpr hlt
    simp [getShopRewardedCooldown, hnge, jsCeilDiv_eq_ceil]
  · by_cases hge : SHOP_REWARDED_COOLDOWN ≤ now - s.lastShopRewardedTime
    · have hnlt : ¬(now - s.lastShopRewardedTime < SHOP_REWARDED_COOLDOWN) := not_lt.mpr hge
      constructor
      · intro _
        cases hr : (showRewardedAd s showOk).rewarded with
        | true => simp [showShopRewardedAd, hnlt, hr]
        | false => simp [showShopRewardedAd, hnlt, hr]
      · intro _
        simp [getShopRewardedCooldown, hge]
    · have hlt : now - s.lastShopRewardedTime < SHOP_REWARDED_COOLDOWN := not_le.mp hge
      have hpos : 1 ≤ jsCeilDiv (SHOP_REWARDED_COOLDOWN - (now - s.lastShopRewardedTime)) 1000 :=
        jsCeilDiv_pos _ (by omega)
      constructor
      · intro h0
        rw [getShopRewardedCooldown] at h0
        simp only [hge, if_false, if_neg hge] at h0
        omega
      · intro hcd
        rw [showShopRewardedAd] at hcd
        simp [hlt] at hcd

/-- C7 witness: at 600000 ms elapsed the remaining time is `0` and a shop
call is not in cooldown; at 1000 ms elapsed the ceiling formula applies
and evaluates to 599 seconds, and the call is in cooldown. -/
theorem getShopRewardedCooldown_spec_witness :
    getShopRewardedCooldown initialState 600000 = 0 ∧
    (getShopRewardedCooldown initialState 600000 = 0 ↔
      (showShopRewardedAd initialState 600000 600000 true).cooldown = false) ∧
    getShopRewardedCooldown initialState 1000
      = Int.ceil (((SHOP_REWARDED_COOLDOWN - ((1000 : Int) - initialState.lastShopRewardedTime) : Int) : ℚ) / 1000) ∧
    getShopRewardedCooldown initialState 1000 = 599 := by
  have h1 := (getShopRewardedCooldown_spec initialState 600000 600000 true).1 (by decide)
  have h2 := (getShopRewardedCooldown_spec initialState 600000 600000 true).2.2
  have h3 := (getShopRewardedCooldown_spec initialState 1000 1000 true).2.1 (by decide)
  exact ⟨h1, h2, h3, by rfl⟩

/-- An `applyLanguageOnce` call on a state whose flag is already set is a
no-op. -/
theorem applyLanguageOnce_applied (s : SdkState) (h : s.languageApplied = true) :
    applyLanguageOnce s = (s, none) := by
  simp [applyLanguageOnce, h]

/-- A `sendGameReadyOnce` call on a state whose flag is already set is a
no-op. -/
theorem sendGameReadyOnce_sent (s : SdkState) (h : s.gameReadySent = true) :
    sendGameReadyOnce s = (s, []) := by
  simp [sendGameReadyOnce, h]

/-- Iterating `applyLanguageOnce` from a state whose flag is set changes
nothing. -/
theorem applyLanguageOnceIter_applied (n : Nat) (s : SdkState) (h : s.languageApplied = true) :
    applyLanguageOnceIter n s = s := by
  induction n with
  | zero => rfl
  | succ n ih =>
    rw [applyLanguageOnceIter, applyLanguageOnce_applied s h]
    exact ih

/-- Iterating `sendGameReadyOnce` from a state whose flag is set changes
nothing. -/
theorem sendGameReadyOnceIter_sent (n : Nat) (s : SdkState) (h : s.gameReadySent = true) :
    sendGameReadyOnceIter n s = s := by
  induction n with
  | zero => rfl
  | succ n ih =>
    rw [sendGameReadyOnceIter, sendGameReadyOnce_sent s h]
    exact ih

/-- C8 (confirmed): `applyLanguageOnce` and `sendGameReadyOnce` are
idempotent.  The first call sets the corresponding flag
(`languageApplied` / `gameReadySent`) and performs the action (with a
bridge present, passes a language to `setLang` / sends `game_ready`);
a call on a state whose flag is set returns immediately with no state
change and no action; hence n ≥ 1 calls leave the same state as one
call. -/
theorem onceGuards_idempotent (s : SdkState) (n : Nat) (hn : 1 ≤ n) :
    (applyLanguageOnce s).1.languageApplied = true ∧
    (s.languageApplied = false →
      (applyLanguageOnce s).1 = { s with languageApplied := true } ∧
      (s.bridge.isSome = true → (applyLanguageOnce s).2.isSome = true)) ∧
    (s.languageApplied = true → applyLanguageOnce s = (s, none)) ∧
    applyLanguageOnce (applyLanguageOnce s).1 = ((applyLanguageOnce s).1, none) ∧
    applyLanguageOnceIter n s = (applyLanguageOnce s).1 ∧
    (sendGameReadyOnce s).1.gameReadySent = true ∧
    (s.gameReadySent = false →
      (sendGameReadyOnce s).1 = { s with gameReadySent := true } ∧
      (s.bridge.isSome = true → (sendGameReadyOnce s).2 = ["game_ready"])) ∧
    (s.gameReadySent = true → sendGameReadyOnce s = (s, [])) ∧
    sendGameReadyOnce (sendGameReadyOnce s).1 = ((sendGameReadyOnce s).1, []) ∧
    sendGameReadyOnceIter n s = (sendGameReadyOnce s).1 := by
  have hla : (applyLanguageOnce s).1.languageApplied = true := by
    by_cases h : s.languageApplied = true
    · simp [applyLanguageOnce, h]
    · simp [applyLanguageOnce, h]
  have hgs : (sendGameReadyOnce s).1.gameReadySent = true := by
    by_cases h : s.gameReadySent = true
    · simp [sendGameReadyOnce, h]
    · simp [sendGameReadyOnce, h]
  obtain ⟨m, rfl⟩ : ∃ m, n = m + 1 := ⟨n - 1, by omega⟩
  refine ⟨hla, ?_, applyLanguageOnce_applied s, applyLanguageOnce_applied _ hla, ?_,
    hgs, ?_, sendGameReadyOnce_sent s, sendGameReadyOnce_sent _ hgs, ?_⟩
  · intro h
    constructor
    · simp [applyLanguageOnce, h]
    · intro hb
      obtain ⟨b, hbeq⟩ := Option.isSome_iff_exists.mp hb
      simp [applyLanguageOnce, h, hbeq]
  · rw [applyLanguageOnceIter]
    exact applyLanguageOnceIter_applied m _ hla
  · intro h
    constructor
    · simp [sendGameReadyOnce, h]
    · intro hb
      obtain ⟨b, hbeq⟩ := Option.isSome_iff_exists.mp hb
      simp [sendGameReadyOnce, h, hbeq]
  · rw [sendGameReadyOnceIter]
    exact sendGameReadyOnceIter_sent m _ hgs

/-- C8 witness: from the fresh bridged state, three calls equal one call
for both functions, the flags get set, and the actions fire on the first
call only. -/
theorem onceGuards_idempotent_witness :
    (applyLanguageOnce stateWithBridge).1.languageApplied = true ∧
    (applyLanguageOnce stateWithBridge).2.isSome = true ∧
    applyLanguageOnceIter 3 stateWithBridge = (applyLanguageOnce stateWithBridge).1 ∧
    applyLanguageOnce (applyLanguageOnce stateWithBridge).1
      = ((applyLanguageOnce stateWithBridge).1, none) ∧
    (sendGameReadyOnce stateWithBridge).2 = ["game_ready"] ∧
    sendGameReadyOnceIter 3 stateWithBridge = (sendGameReadyOnce stateWithBridge).1 ∧
    sendGameReadyOnce (sendGameReadyOnce stateWithBridge).1
      = ((sendGameReadyOnce stateWithBridge).1, []) := by
  have h := onceGuards_idempotent stateWithBridge 3 (by decide)
  exact ⟨h.1, ((h.2.1 rfl).2 rfl), h.2.2.2.2.1, h.2.2.2.1, ((h.2.2.2.2.2.2.1 rfl).2 rfl),
    h.2.2.2.2.2.2.2.2.2, h.2.2.2.2.2.2.2.2.1⟩

/-- C9 (confirmed): after `setAdsDisabled(true)` every
`showInterstitialAd` call returns `{shown:false}` at once — no bridge
contact, no state change — while `showRewardedAd` and
`showShopRewardedAd` ignore the flag: their results and their
bridge-invocation behaviour coincide with the same call on the state
without the flag, and with a bridge present (and, for the shop ad, the
cooldown elapsed) they still invoke the rewarded ad. -/
theorem setAdsDisabled_gates_only_interstitials
    (s : SdkState) (now now2 : Int) (showOk : Bool) :
    showInterstitialAd (setAdsDisabled s true) now now2 showOk =
      { shown := false, state := setAdsDisabled s true, calledShowInterstitial := false } ∧
    (showRewardedAd (setAdsDisabled s true) showOk).rewarded
        = (showRewardedAd s showOk).rewarded ∧
    (showRewardedAd (setAdsDisabled s true) showOk).calledShowRewarded
        = (showRewardedAd s showOk).calledShowRewarded ∧
    (s.bridge.isSome = true →
      (showRewardedAd (setAdsDisabled s true) showOk).calledShowRewarded = true) ∧
    (showShopRewardedAd (setAdsDisabled s true) now now2 showOk).rewarded
        = (showShopRewardedAd s now now2 showOk).rewarded ∧
    (showShopRewardedAd (setAdsDisabled s true) now now2 showOk).cooldown
        = (showShopRewardedAd s now now2 showOk).cooldown ∧
    (showShopRewardedAd (setAdsDisabled s true) now now2 showOk).remainingTime
        = (showShopRewardedAd s now now2 showOk).remainingTime ∧
    (showShopRewardedAd (setAdsDisabled s true) now now2 showOk).calledShowRewarded
        = (showShopRewardedAd s now now2 showOk).calledShowRewarded ∧
    (s.bridge.isSome = true → SHOP_REWARDED_COOLDOWN ≤ now - s.lastShopRewardedTime →
      (showShopRewardedAd (setAdsDisabled s true) now now2 showOk).calledShowRewarded = true) := by
  refine ⟨?_, ?_, ?_, ?_, ?_, ?_, ?_, ?_, ?_⟩
  · simp [showInterstitialAd, setAdsDisabled]
  · cases hbeq : s.bridge with
    | none => simp [showRewardedAd, setAdsDisabled, hbeq]
    | some b => cases showOk <;> simp [showRewardedAd, setAdsDisabled, hbeq]
  · cases hbeq : s.bridge with
    | none => simp [showRewardedAd, setAdsDisabled, hbeq]
    | some b => cases showOk <;> simp [showRewardedAd, setAdsDisabled, hbeq]
  · intro hb
    obtain ⟨b, hbeq⟩ := Option.isSome_iff_exists.mp hb
    cases showOk <;> simp [showRewardedAd, setAdsDisabled, hbeq]
  · by_cases hlt : now - s.lastShopRewardedTime < SHOP_REWARDED_COOLDOWN
    · simp [showShopRewardedAd, setAdsDisabled, hlt]
    · cases hbeq : s.bridge with
      | none => simp [showShopRewardedAd, showRewardedAd, setAdsDisabled, hlt, hbeq]
      | some b => cases showOk <;> simp [showShopRewardedAd, showRewardedAd, setAdsDisabled, hlt, hbeq]
  · by_cases hlt : now - s.lastShopRewardedTime < SHOP_REWARDED_COOLDOWN
    · simp [showShopRewardedAd, setAdsDisabled, hlt]
    · cases hbeq : s.bridge with
      | none => simp [showShopRewardedAd, showRewardedAd, setAdsDisabled, hlt, hbeq]
      | some b => cases showOk <;> simp [showShopRewardedAd, showRewardedAd, setAdsDisabled, hlt, hbeq]
  · by_cases hlt : now - s.lastShopRewardedTime < SHOP_REWARDED_COOLDOWN
    · simp [showShopRewardedAd, setAdsDisabled, hlt]
    · cases hbeq : s.bridge with
      | none => simp [showShopRewardedAd, showRewardedAd, setAdsDisabled, hlt, hbeq]
      | some b => cases showOk <;> simp [showShopRewardedAd, showRewardedAd, setAdsDisabled, hlt, hbeq]
  · by_cases hlt : now - s.lastShopRewardedTime < SHOP_REWARDED_COOLDOWN
    · simp [showShopRewardedAd, setAdsDisabled, hlt]
    · cases hbeq : s.bridge with
      | none => simp [showShopRewardedAd, showRewardedAd, setAdsDisabled, hlt, hbeq]
      | some b => cases showOk <;> simp [showShopRewardedAd, showRewardedAd, setAdsDisabled, hlt, hbeq]
  · intro hb hge
    obtain ⟨b, hbeq⟩ := Option.isSome_iff_exists.mp hb
    have hnlt : ¬(now - s.lastShopRewardedTime < SHOP_REWARDED_COOLDOWN) := not_lt.mpr hge
    cases showOk <;> simp [showShopRewardedAd, showRewardedAd, setAdsDisabled, hnlt, hbeq]

/-- C9 witness: at the bridged state with the flag set, the interstitial
is gated while the rewarded paths still invoke the ad. -/
theorem setAdsDisabled_gates_only_interstitials_witness :
    showInterstitialAd (setAdsDisabled stateWithBridge true) 700000 700000 true =
      { shown := false
        state := setAdsDisabled stateWithBridge true
        calledShowInterstitial := false } ∧
    (showRewardedAd (setAdsDisabled stateWithBridge true) true).calledShowRewarded = true ∧
    (showShopRewardedAd (setAdsDisabled stateWithBridge true) 700000 700000 true).calledShowRewarded
      = true := by
  have h := setAdsDisabled_gates_only_interstitials stateWithBridge 700000 700000 true
  exact ⟨h.1, h.2.2.2.1 rfl, h.2.2.2.2.2.2.2.2 rfl (by decide)⟩

/-- C10 (confirmed): cooldown timestamps advance only on a successful ad
display: when `bridge.advertisement.showInterstitial` throws
(`showOk = false`) `showInterstitialAd` leaves `lastInterstitialTime`
unchanged, and whenever `showShopRewardedAd`'s result is not rewarded it
leaves `lastShopRewardedTime` unchanged. -/
theorem failed_ad_starts_no_cooldown (s : SdkState) (now now2 : Int) (showOk : Bool) :
    (showInterstitialAd s now now2 false).state.lastInterstitialTime
        = s.lastInterstitialTime ∧
    ((showShopRewardedAd s now now2 showOk).rewarded = false →
      (showShopRewardedAd s now now2 showOk).state.lastShopRewardedTime
          = s.lastShopRewardedTime) := by
  constructor
  · by_cases hd : s.isAdsDisabled = true
    · simp [showInterstitialAd, hd]
    · by_cases hlt : now - s.lastInterstitialTime < INTERSTITIAL_COOLDOWN
      · simp [showInterstitialAd, hd, hlt]
      · cases hbeq : s.bridge with
        | none => simp [showInterstitialAd, hd, hlt, hbeq]
        | some b => simp [showInterstitialAd, hd, hlt, hbeq]
  · intro hnr
    by_cases hlt : now - s.lastShopRewardedTime < SHOP_REWARDED_COOLDOWN
    · simp [showShopRewardedAd, hlt]
    · cases hr : (showRewardedAd s showOk).rewarded with
      | true =>
        rw [showShopRewardedAd] at hnr
        simp [hlt, hr] at hnr
      | false =>
        have hst : (showRewardedAd s showOk).state = s := by
          cases hbeq : s.bridge with
          | none => simp [showRewardedAd, hbeq]
          | some b => cases showOk <;> simp [showRewardedAd, hbeq]
        simp [showShopRewardedAd, hlt, hr, hst]

/-- C10 witness: at the bridged state, a failing interstitial at
100000 ms and a failing shop rewarded ad at 700000 ms leave both
timestamps at 0. -/
theorem failed_ad_starts_no_cooldown_witness :
    (showInterstitialAd stateWithBridge 100000 100000 false).state.lastInterstitialTime = 0 ∧
    (showShopRewardedAd stateWithBridge 700000 700000 false).state.lastShopRewardedTime = 0 := by
  have h := failed_ad_starts_no_cooldown stateWithBridge 700000 700000 false
  have h1 := (failed_ad_starts_no_cooldown stateWithBridge 100000 100000 false).1
  exact ⟨h1, h.2 rfl⟩
